import Mathlib

/-!
# Metrics client of the vertical-pod-autoscaler recommender

A shallow embedding of
`vertical-pod-autoscaler/recommender/cluster/metrics_client.go`
(`GetContainersMetrics`, `createContainerMetricsSnapshots`,
`newContainerMetricsSnapshot`, `calculateUsage`) together with the parts of
the data model the file relies on.

Conventions of the embedding:

* a Go map is embedded as the list of its entries (`GoMap`); indexing
  `m[k]` is `GoMap.index`, which yields the zero value of the element type
  when the key is absent;
* a Go pointer is an `Option` (`none` is `nil`); a slice is a `List`
  (`[]` is both the nil and the empty slice);
* a Go `(value, error)` result is a pair whose second component is an
  `Option` (`none` is the nil error);
* a run-time panic (nil dereference) is the outer `none` of
  `GetContainersMetrics`;
* the `glog.V(3).Infof` call only writes a log line and is left out.
-/

namespace Cluster

/-! ## Go maps -/

/-- A Go map, embedded as the list of its entries. -/
abbrev GoMap (K V : Type) := List (K × V)

/-- Go map lookup `v, ok := m[k]`: `some v` when `k` is a key of `m` with
value `v`, `none` when it is not. -/
def GoMap.get? {K V : Type} [DecidableEq K] : GoMap K V → K → Option V
  | [], _ => none
  | (k', v) :: rest, k => if k' = k then some v else GoMap.get? rest k

/-- Go map indexing `m[k]`: the value stored under `k`, or `zero` (the zero
value of the element type) when `k` is not a key of `m`. -/
def GoMap.index {K V : Type} [DecidableEq K] (m : GoMap K V) (k : K) (zero : V) : V :=
  (GoMap.get? m k).getD zero

/-- The keys of a Go map. -/
def GoMap.keys {K V : Type} (m : GoMap K V) : List K := m.map Prod.fst

/-! ## Raw quantities of the metrics source -/

/-- Modelled from the spec: the raw quantity type of the metrics source
(`resource.Quantity`, not part of this file's source). A quantity is the exact
decimal amount `value * 10 ^ scale` in base units (cores for CPU, bytes for
memory): `"500m"` is `⟨500, -3⟩`, two whole cores are `⟨2, 0⟩`, `"256Mi"` is
`⟨256 * 2 ^ 20, 0⟩`. The library holds a quantity either in an int64 form
(a 64-bit signed mantissa and a scale) or in an arbitrary-precision decimal
form; here a quantity whose mantissa `value` fits in 64 bits is taken in the
int64 form and any other in the decimal form. The library can also hold a small
mantissa in the decimal form; the two forms convert alike except when the
result overflows 64 bits or a negative amount has to be rounded. The general
theorems below stay clear of those two cases; the concrete examples that
overflow (`⟨9223372036854776, 0⟩`, `⟨10, 18⟩`, `⟨9223372036854775808, 0⟩`)
are taken in the form in which the library's parser yields them. -/
structure Quantity where
  value : Int
  scale : Int
deriving DecidableEq, Repr

/-- Modelled from the spec: the zero value of `Quantity`, which Go map
indexing yields for an absent key ("defaults to zero"). -/
def Quantity.zero : Quantity := ⟨0, 0⟩

/-- Modelled from the spec: a raw quantity "expressed as whole cores C" or
"expressed in bytes B": `q` is exactly the whole number `n` of base units,
whatever its scale: `⟨2, 0⟩`, `⟨2000, -3⟩` and `⟨20, -1⟩` are all two
whole units. -/
def Quantity.IsWhole (q : Quantity) (n : Int) : Prop :=
  if 0 ≤ q.scale then q.value * 10 ^ q.scale.toNat = n
  else q.value = n * 10 ^ (-q.scale).toNat

instance (q : Quantity) (n : Int) : Decidable (q.IsWhole n) := by
  unfold Quantity.IsWhole; infer_instance

/-- Integer division of `a` by `d` that rounds an inexact quotient away from
zero. -/
def divRoundAway (a : Int) (d : Nat) : Int :=
  if 0 ≤ a then (a + d - 1) / d else -((-a + d - 1) / d)

/-- The quantity expressed in units of `10 ^ s` as a mathematical integer of
any size: exact when the amount is a whole number of those units, otherwise
rounded away from zero. -/
def Quantity.ExactScaledValue (q : Quantity) (s : Int) : Int :=
  if s ≤ q.scale then q.value * 10 ^ (q.scale - s).toNat
  else divRoundAway q.value (10 ^ (s - q.scale).toNat)

/-- The largest 64-bit signed integer, `2 ^ 63 - 1`. -/
def maxInt64 : Int := 9223372036854775807

/-- The smallest 64-bit signed integer, `-2 ^ 63`. -/
def minInt64 : Int := -9223372036854775808

/-- Whether an integer is representable as a 64-bit signed integer. -/
def fitsInt64 (n : Int) : Bool := decide (minInt64 ≤ n) && decide (n ≤ maxInt64)

/-- The 64-bit signed integer with the same low 64 bits as `n` (two's
complement wrap-around). -/
def wrapInt64 (n : Int) : Int :=
  (n + 9223372036854775808) % 18446744073709551616 - 9223372036854775808

/-- Integer division of `a` by `d` that rounds an inexact quotient up, toward
plus infinity. -/
def divCeil (a : Int) (d : Nat) : Int := (a + d - 1) / d

/-- Modelled from the spec: `Quantity.ScaledValue`, the quantity expressed in
units of `10 ^ s` as a 64-bit signed integer ("truncating/rounding as the
source representation dictates"). The source representation is
`resource.Quantity`, whose conversions return `int64` and round an inexact
result up:

* int64 form, scaling down (`q.scale < s`): the mantissa is divided by the
  power of ten and an inexact quotient is rounded away from zero;
* int64 form, scaling up: the mantissa is multiplied by the power of ten, and
  the result is `0` when the product overflows 64 bits;
* arbitrary-precision form: the result rounded up is computed exactly and its
  low 64 bits are returned.

For a non-negative quantity whose result fits in 64 bits all three cases give
`Quantity.ExactScaledValue` (`Quantity.ScaledValue_eq_exact`); the theorems
below use the other cases only at concrete inputs. -/
def Quantity.ScaledValue (q : Quantity) (s : Int) : Int :=
  if fitsInt64 q.value then
    if q.scale < s then divRoundAway q.value (10 ^ (s - q.scale).toNat)
    else
      let product := q.value * 10 ^ (q.scale - s).toNat
      if fitsInt64 product then product else 0
  else
    if s ≤ q.scale then wrapInt64 (q.value * 10 ^ (q.scale - s).toNat)
    else wrapInt64 (divCeil q.value (10 ^ (s - q.scale).toNat))

/-- Modelled from the spec: `Quantity.MilliValue`, "convert the raw quantity
to millicores (1000 × cores)", as a 64-bit signed integer. -/
def Quantity.MilliValue (q : Quantity) : Int := q.ScaledValue (-3)

/-- Modelled from the spec: `Quantity.Value`, "convert the raw quantity to a
plain byte count (integer)", as a 64-bit signed integer. -/
def Quantity.Value (q : Quantity) : Int := q.ScaledValue 0

/-- The exact amount of a quantity in base units (cores, bytes), as a
rational number: `value * 10 ^ scale`. -/
def Quantity.toRat (q : Quantity) : ℚ := (q.value : ℚ) * (10 : ℚ) ^ q.scale

/-- Modelled from the spec: resource names of the metrics source
(`k8sapiv1.ResourceName`, a string type). -/
abbrev ResourceName := String

/-- Modelled from the spec: the CPU key of a raw usage map (`cpu: "500m"`). -/
def k8sResourceCPU : ResourceName := "cpu"

/-- Modelled from the spec: the memory key of a raw usage map
(`memory: "256Mi"`). -/
def k8sResourceMemory : ResourceName := "memory"

/-- Modelled from the spec: `k8sapiv1.ResourceList`, the "resource-usage map"
of a container. -/
abbrev ResourceList := GoMap ResourceName Quantity

/-! ## The recommender's data model (package `model`) -/

/-- Modelled from the spec: `model.PodID`, "{namespace: string, pod name:
string}". -/
structure PodID where
  Namespace : String
  PodName : String
deriving DecidableEq, Repr

/-- Modelled from the spec: `model.ContainerID`, "{PodID, container name:
string}". -/
structure ContainerID where
  PodID : PodID
  ContainerName : String
deriving DecidableEq, Repr

/-- Modelled from the spec: `model.MetricName`, an "enumerated tag, at minimum
{CPU, Memory}. Extensible to other resource kinds". -/
inductive MetricName where
  | ResourceCPU
  | ResourceMemory
  | other (name : String)
deriving DecidableEq, Repr

/-- Modelled from the spec: `model.ResourceAmount`, "an integer quantity in a
canonical unit: CPU in millicores, memory in bytes". The amounts stored by
`calculateUsage` are results of `Quantity.MilliValue` and `Quantity.Value`,
which are 64-bit signed integers, so the conversion
`model.ResourceAmount(...)` leaves them unchanged. -/
abbrev ResourceAmount := Int

/-- Modelled from the spec: an absolute timestamp (`time.Time`), as
nanoseconds since the epoch. -/
structure Time where
  unixNano : Int
deriving DecidableEq, Repr

/-- Modelled from the spec: a duration (`time.Duration`), in nanoseconds. -/
structure Duration where
  nanoseconds : Int
deriving DecidableEq, Repr

/-- The duration of `n` seconds. -/
def Duration.seconds (n : Int) : Duration := ⟨n * 1000000000⟩

/-- Modelled from the spec: `model.ContainerMetricsSnapshot`, "{ContainerID,
usage: mapping from MetricName to ResourceAmount, snapshot time, snapshot
window}". -/
structure ContainerMetricsSnapshot where
  ID : ContainerID
  Usage : GoMap MetricName ResourceAmount
  SnapshotTime : Time
  SnapshotWindow : Duration
deriving DecidableEq, Repr

/-! ## Records of the metrics source (package `v1beta1`) -/

/-- Modelled from the spec: `metav1.Time`, a wrapper around `time.Time`. -/
structure MetaTime where
  Time : Time
deriving DecidableEq, Repr

/-- Modelled from the spec: `metav1.Duration`, a wrapper around
`time.Duration`. -/
structure MetaDuration where
  Duration : Duration
deriving DecidableEq, Repr

/-- Modelled from the spec: `v1beta1.ContainerMetrics`, "(container name, raw
resource-usage measurements)". -/
structure ContainerMetrics where
  Name : String
  Usage : ResourceList
deriving DecidableEq, Repr

/-- Modelled from the spec: `v1beta1.PodMetrics`, "{pod namespace, pod name,
sampling timestamp, sampling window, sequence of (container name, raw
resource-usage measurements)}". -/
structure PodMetrics where
  Namespace : String
  Name : String
  Timestamp : MetaTime
  Window : MetaDuration
  Containers : List ContainerMetrics
deriving DecidableEq, Repr

/-- Modelled from the spec: `v1beta1.PodMetricsList`, the "sequence of
pod-level metrics records" of one listing. -/
structure PodMetricsList where
  Items : List PodMetrics
deriving DecidableEq, Repr

/-- A Go `error` value. -/
structure GoError where
  msg : String
deriving DecidableEq, Repr

/-- Modelled from the spec: `metav1.ListOptions`; the code passes the empty
options. -/
structure ListOptions where
deriving DecidableEq, Repr

/-- Modelled from the spec: the listing capability ("one method, one input,
one output-or-error"): `List` returns a pointer to a pod list and an error. -/
structure PodMetricsInterface where
  List : ListOptions → Option PodMetricsList × Option GoError

/-- Modelled from the spec: `resourceclient.PodMetricsesGetter`;
`PodMetricses namespace` is the listing capability for that namespace. -/
structure PodMetricsesGetter where
  PodMetricses : String → PodMetricsInterface

/-- Modelled from the spec: `api.NamespaceAll`, the selector for "all
namespaces". -/
def NamespaceAll : String := ""

/-! ## The metrics client (`metrics_client.go`) -/

/-- The `metricsClient` struct. -/
structure metricsClient where
  metricsGetter : PodMetricsesGetter

/-- `NewMetricsClient`. -/
def NewMetricsClient (metricsGetter : PodMetricsesGetter) : metricsClient :=
  { metricsGetter := metricsGetter }

/-- `calculateUsage`: both raw entries are read by map indexing (absent keys
give the zero quantity), converted, and stored in a two-entry map literal. -/
def calculateUsage (containerUsage : ResourceList) : GoMap MetricName ResourceAmount :=
  let cpuQuantity := GoMap.index containerUsage k8sResourceCPU Quantity.zero
  let cpuMillicores := cpuQuantity.MilliValue
  let memoryQuantity := GoMap.index containerUsage k8sResourceMemory Quantity.zero
  let memoryBytes := memoryQuantity.Value
  [(MetricName.ResourceCPU, cpuMillicores), (MetricName.ResourceMemory, memoryBytes)]

/-- `newContainerMetricsSnapshot`. -/
def newContainerMetricsSnapshot (containerMetrics : ContainerMetrics)
    (podMetrics : PodMetrics) : ContainerMetricsSnapshot :=
  let usage := calculateUsage containerMetrics.Usage
  { ID := { ContainerName := containerMetrics.Name,
            PodID := { Namespace := podMetrics.Namespace, PodName := podMetrics.Name } },
    Usage := usage,
    SnapshotTime := podMetrics.Timestamp.Time,
    SnapshotWindow := podMetrics.Window.Duration }

/-- The loop of `createContainerMetricsSnapshots`: for the containers at
indices `i, i+1, ...` store a pointer to the new snapshot at that index. -/
def fillSnapshots (podMetrics : PodMetrics) :
    Nat → List ContainerMetrics → List (Option ContainerMetricsSnapshot) →
    List (Option ContainerMetricsSnapshot)
  | _, [], snapshots => snapshots
  | i, containerMetrics :: rest, snapshots =>
    fillSnapshots podMetrics (i + 1) rest
      (snapshots.set i (some (newContainerMetricsSnapshot containerMetrics podMetrics)))

/-- `createContainerMetricsSnapshots`: a slice of `len(Containers)` nil
pointers is allocated, then filled index by index. -/
def createContainerMetricsSnapshots (podMetrics : PodMetrics) :
    List (Option ContainerMetricsSnapshot) :=
  let snapshots := List.replicate podMetrics.Containers.length none
  fillSnapshots podMetrics 0 podMetrics.Containers snapshots

/-- `GetContainersMetrics`: one listing call for all namespaces; on error
`(nil, err)`; otherwise the snapshots of every pod appended in listing order.
The outer `none` is the nil dereference of `podMetricsList.Items` when the
listing returns neither a list nor an error. -/
def metricsClient.GetContainersMetrics (c : metricsClient) :
    Option (List (Option ContainerMetricsSnapshot) × Option GoError) :=
  let metricsSnapshots : List (Option ContainerMetricsSnapshot) := []
  let podMetricsInterface := c.metricsGetter.PodMetricses NamespaceAll
  match podMetricsInterface.List {} with
  | (_, some err) => some ([], some err)
  | (none, none) => none
  | (some podMetricsList, none) =>
    some (podMetricsList.Items.foldl
      (fun metricsSnapshots podMetrics =>
        metricsSnapshots ++ createContainerMetricsSnapshots podMetrics)
      metricsSnapshots, none)

/-! ## Example inputs -/

/-- An example pod record with two containers, the second of which reports
only an unrecognised resource kind. -/
def examplePod : PodMetrics :=
  { Namespace := "default", Name := "web-1",
    Timestamp := ⟨⟨1700000000⟩⟩, Window := ⟨Duration.seconds 60⟩,
    Containers :=
      [⟨"app", [("cpu", ⟨500, -3⟩), ("memory", ⟨256 * 2 ^ 20, 0⟩)]⟩,
       ⟨"sidecar", [("gpu", ⟨1, 0⟩)]⟩] }

/-- A metrics client whose listing call returns the given pair. -/
def clientReturning (r : Option PodMetricsList × Option GoError) : metricsClient :=
  NewMetricsClient ⟨fun _ => ⟨fun _ => r⟩⟩

/-- The pod record of the end-to-end scenario: namespace "default", name
"web-1", timestamp `T`, window 60s, one container "app" with cpu "500m"
(500 × 10⁻³ cores) and memory "256Mi" (256 × 2²⁰ bytes). -/
def scenarioPod (T : Time) : PodMetrics :=
  { Namespace := "default", Name := "web-1",
    Timestamp := ⟨T⟩, Window := ⟨Duration.seconds 60⟩,
    Containers := [⟨"app", [("cpu", ⟨500, -3⟩), ("memory", ⟨256 * 2 ^ 20, 0⟩)]⟩] }

/-- A pod record whose reported sampling window is minus sixty seconds. -/
def negativeWindowPod : PodMetrics :=
  { Namespace := "default", Name := "web-1",
    Timestamp := ⟨⟨1700000000⟩⟩, Window := ⟨Duration.seconds (-60)⟩,
    Containers := [⟨"app", [("cpu", ⟨500, -3⟩), ("memory", ⟨256 * 2 ^ 20, 0⟩)]⟩] }

/-! ## Auxiliary lemmas -/

theorem divRoundAway_mul_self (k : Int) (d : Nat) (hd : 0 < d) :
    divRoundAway (k * d) d = k := by
  have hd' : (0 : Int) < d := by exact_mod_cast hd
  unfold divRoundAway
  split
  · have h : k * (d : Int) + d - 1 = (d : Int) - 1 + d * k := by ring
    rw [h, Int.add_mul_ediv_left _ _ (ne_of_gt hd'),
      Int.ediv_eq_zero_of_lt (by omega) (by omega)]
    simp
  · have h : -(k * (d : Int)) + d - 1 = (d : Int) - 1 + d * (-k) := by ring
    rw [h, Int.add_mul_ediv_left _ _ (ne_of_gt hd'),
      Int.ediv_eq_zero_of_lt (by omega) (by omega)]
    simp

theorem Quantity.ExactScaledValue_of_IsWhole (q : Quantity) (n s : Int) (hs : s ≤ 0)
    (h : q.IsWhole n) : q.ExactScaledValue s = n * 10 ^ (-s).toNat := by
  unfold Quantity.IsWhole at h
  unfold Quantity.ExactScaledValue
  by_cases h0 : 0 ≤ q.scale
  · rw [if_pos h0] at h
    rw [if_pos (le_trans hs h0), ← h, mul_assoc, ← pow_add]
    congr 2
    omega
  · rw [if_neg h0] at h
    by_cases h1 : s ≤ q.scale
    · rw [if_pos h1, h, mul_assoc, ← pow_add]
      congr 2
      omega
    · rw [if_neg h1, h]
      have e : (-q.scale).toNat = (-s).toNat + (s - q.scale).toNat := by omega
      rw [e, pow_add, ← mul_assoc]
      have := divRoundAway_mul_self (n * 10 ^ (-s).toNat) (10 ^ (s - q.scale).toNat)
        (by positivity)
      simpa using this

theorem divRoundAway_nonneg (a : Int) (d : Nat) (ha : 0 ≤ a) (hd : 0 < d) :
    0 ≤ divRoundAway a d := by
  have hd' : (0 : Int) < d := by exact_mod_cast hd
  unfold divRoundAway
  rw [if_pos ha]
  exact Int.ediv_nonneg (by omega) (le_of_lt hd')

theorem Quantity.ExactScaledValue_nonneg (q : Quantity) (s : Int) (h : 0 ≤ q.value) :
    0 ≤ q.ExactScaledValue s := by
  unfold Quantity.ExactScaledValue
  split
  · exact mul_nonneg h (by positivity)
  · exact divRoundAway_nonneg _ _ h (by positivity)

theorem ceil_intCast_div_natCast_eq (a : Int) (d : Nat) (hd : 0 < d) :
    ⌈(a : ℚ) / (d : ℚ)⌉ = (a + d - 1) / d := by
  have hd' : (0 : Int) < d := by exact_mod_cast hd
  have hdq : (0 : ℚ) < d := by exact_mod_cast hd
  have h1 := Int.emod_add_ediv (a + d - 1) d
  have h2 := Int.emod_nonneg (a + d - 1) (ne_of_gt hd')
  have h3 := Int.emod_lt_of_pos (a + d - 1) hd'
  rw [Int.ceil_eq_iff]
  constructor
  · rw [lt_div_iff₀ hdq]
    have : ((a + d - 1) / d - 1) * (d : Int) < a := by nlinarith
    exact_mod_cast this
  · rw [div_le_iff₀ hdq]
    have : a ≤ ((a + d - 1) / d) * (d : Int) := by nlinarith
    exact_mod_cast this

theorem Quantity.value_nonneg_of_toRat_nonneg (q : Quantity) (h : 0 ≤ q.toRat) :
    0 ≤ q.value := by
  unfold Quantity.toRat at h
  have hp : (0 : ℚ) < (10 : ℚ) ^ q.scale := by positivity
  have := nonneg_of_mul_nonneg_left h hp
  exact_mod_cast this

theorem Quantity.ExactScaledValue_milli_eq_ceil (q : Quantity) (h : 0 ≤ q.value) :
    q.ExactScaledValue (-3) = ⌈1000 * q.toRat⌉ := by
  unfold Quantity.ExactScaledValue Quantity.toRat
  by_cases hs : (-3 : Int) ≤ q.scale
  · rw [if_pos hs]
    have e : (1000 : ℚ) * ((q.value : ℚ) * (10 : ℚ) ^ q.scale)
        = ((q.value * 10 ^ (q.scale - -3).toNat : Int) : ℚ) := by
      have hn : q.scale = ((q.scale - -3).toNat : Int) + (-3) := by omega
      push_cast
      nth_rewrite 1 [hn]
      rw [zpow_add₀ (by norm_num), zpow_natCast]
      norm_num
      ring
    rw [e, Int.ceil_intCast]
  · rw [if_neg hs]
    have e : (1000 : ℚ) * ((q.value : ℚ) * (10 : ℚ) ^ q.scale)
        = (q.value : ℚ) / ((10 ^ (-3 - q.scale).toNat : Nat) : ℚ) := by
      have hn : q.scale = -((-3 - q.scale).toNat : Int) + (-3) := by omega
      push_cast
      nth_rewrite 1 [hn]
      rw [zpow_add₀ (by norm_num), zpow_neg, zpow_natCast]
      norm_num
      field_simp
      ring
    rw [e, ceil_intCast_div_natCast_eq _ _ (by positivity)]
    unfold divRoundAway
    rw [if_pos h]

theorem Quantity.ExactScaledValue_unit_eq_ceil (q : Quantity) (h : 0 ≤ q.value) :
    q.ExactScaledValue 0 = ⌈q.toRat⌉ := by
  unfold Quantity.ExactScaledValue Quantity.toRat
  by_cases hs : (0 : Int) ≤ q.scale
  · rw [if_pos hs]
    have e : (q.value : ℚ) * (10 : ℚ) ^ q.scale
        = ((q.value * 10 ^ (q.scale - 0).toNat : Int) : ℚ) := by
      have hn : q.scale = ((q.scale - 0).toNat : Int) := by omega
      push_cast
      nth_rewrite 1 [hn]
      rw [zpow_natCast]
    rw [e, Int.ceil_intCast]
  · rw [if_neg hs]
    have e : (q.value : ℚ) * (10 : ℚ) ^ q.scale
        = (q.value : ℚ) / ((10 ^ (0 - q.scale).toNat : Nat) : ℚ) := by
      have hn : q.scale = -((0 - q.scale).toNat : Int) := by omega
      push_cast
      nth_rewrite 1 [hn]
      rw [zpow_neg, zpow_natCast]
      rfl
    rw [e, ceil_intCast_div_natCast_eq _ _ (by positivity)]
    unfold divRoundAway
    rw [if_pos h]

theorem wrapInt64_of_fitsInt64 (n : Int) (h : fitsInt64 n = true) : wrapInt64 n = n := by
  simp only [fitsInt64, minInt64, maxInt64, Bool.and_eq_true, decide_eq_true_eq] at h
  unfold wrapInt64
  omega

theorem fitsInt64_of_bounds (n : Int) (h0 : 0 ≤ n) (h1 : n ≤ maxInt64) :
    fitsInt64 n = true := by
  simp only [fitsInt64, minInt64, maxInt64, Bool.and_eq_true, decide_eq_true_eq] at *
  omega

theorem Quantity.ScaledValue_eq_exact (q : Quantity) (s : Int) (h0 : 0 ≤ q.value)
    (hfit : q.ExactScaledValue s ≤ maxInt64) : q.ScaledValue s = q.ExactScaledValue s := by
  have hnn := Quantity.ExactScaledValue_nonneg q s h0
  have hf := fitsInt64_of_bounds _ hnn hfit
  unfold Quantity.ScaledValue
  unfold Quantity.ExactScaledValue at hf ⊢
  by_cases hv : fitsInt64 q.value = true
  · rw [if_pos hv]
    by_cases hs : q.scale < s
    · rw [if_pos hs, if_neg (not_le.mpr hs)]
    · rw [if_neg hs, if_pos (not_lt.mp hs)]
      rw [if_pos (not_lt.mp hs)] at hf
      simp only [hf, if_true]
  · rw [if_neg hv]
    by_cases hs : s ≤ q.scale
    · rw [if_pos hs, if_pos hs]
      rw [if_pos hs] at hf
      exact wrapInt64_of_fitsInt64 _ hf
    · rw [if_neg hs, if_neg hs]
      rw [if_neg hs] at hf
      have e : divCeil q.value (10 ^ (s - q.scale).toNat)
          = divRoundAway q.value (10 ^ (s - q.scale).toNat) := by
        unfold divCeil divRoundAway
        rw [if_pos h0]
      rw [e]
      exact wrapInt64_of_fitsInt64 _ hf

theorem Quantity.MilliValue_eq_ceil (q : Quantity) (h : 0 ≤ q.toRat)
    (hfit : 1000 * q.toRat ≤ 2 ^ 63 - 1) : q.MilliValue = ⌈1000 * q.toRat⌉ := by
  have h0 := Quantity.value_nonneg_of_toRat_nonneg q h
  have hc := Quantity.ExactScaledValue_milli_eq_ceil q h0
  have hle : ⌈1000 * q.toRat⌉ ≤ maxInt64 := by
    rw [Int.ceil_le]
    unfold maxInt64
    push_cast
    norm_num at hfit ⊢
    exact hfit
  unfold Quantity.MilliValue
  rw [Quantity.ScaledValue_eq_exact q (-3) h0 (by rw [hc]; exact hle), hc]

theorem Quantity.Value_eq_ceil (q : Quantity) (h : 0 ≤ q.toRat)
    (hfit : q.toRat ≤ 2 ^ 63 - 1) : q.Value = ⌈q.toRat⌉ := by
  have h0 := Quantity.value_nonneg_of_toRat_nonneg q h
  have hc := Quantity.ExactScaledValue_unit_eq_ceil q h0
  have hle : ⌈q.toRat⌉ ≤ maxInt64 := by
    rw [Int.ceil_le]
    unfold maxInt64
    push_cast
    norm_num at hfit ⊢
    exact hfit
  unfold Quantity.Value
  rw [Quantity.ScaledValue_eq_exact q 0 h0 (by rw [hc]; exact hle), hc]

theorem ediv_round_up_le_self (b : Int) (d : Nat) (hb : 0 ≤ b) (hd : 0 < d) :
    0 ≤ (b + d - 1) / d ∧ (b + d - 1) / d ≤ b := by
  have hd' : (0 : Int) < d := by exact_mod_cast hd
  constructor
  · exact Int.ediv_nonneg (by omega) (le_of_lt hd')
  · have hlt : (b + d - 1) / (d : Int) < b + 1 := by
      apply Int.ediv_lt_of_lt_mul hd'
      nlinarith
    omega

theorem wrapInt64_fits (n : Int) : fitsInt64 (wrapInt64 n) = true := by
  simp only [fitsInt64, minInt64, maxInt64, Bool.and_eq_true, decide_eq_true_eq]
  unfold wrapInt64
  omega

theorem Quantity.ScaledValue_fitsInt64 (q : Quantity) (s : Int) :
    fitsInt64 (q.ScaledValue s) = true := by
  unfold Quantity.ScaledValue
  by_cases hv : fitsInt64 q.value = true
  · rw [if_pos hv]
    by_cases hs : q.scale < s
    · rw [if_pos hs]
      have hd : 0 < 10 ^ (s - q.scale).toNat := by positivity
      simp only [fitsInt64, minInt64, maxInt64, Bool.and_eq_true, decide_eq_true_eq] at hv ⊢
      unfold divRoundAway
      by_cases h0 : 0 ≤ q.value
      · rw [if_pos h0]
        have := ediv_round_up_le_self q.value _ h0 hd
        omega
      · rw [if_neg h0]
        have := ediv_round_up_le_self (-q.value) _ (by omega) hd
        omega
    · rw [if_neg hs]
      by_cases hp : fitsInt64 (q.value * 10 ^ (q.scale - s).toNat) = true
      · simp only [hp, if_true]
      · rw [if_neg hp]
        decide
  · rw [if_neg hv]
    by_cases hs : s ≤ q.scale
    · rw [if_pos hs]
      exact wrapInt64_fits _
    · rw [if_neg hs]
      exact wrapInt64_fits _

theorem Quantity.value_nonneg_of_IsWhole (q : Quantity) (n : Int) (h : q.IsWhole n)
    (hn : 0 ≤ n) : 0 ≤ q.value := by
  unfold Quantity.IsWhole at h
  by_cases h0 : 0 ≤ q.scale
  · rw [if_pos h0] at h
    have hp : (0 : Int) < 10 ^ q.scale.toNat := by positivity
    exact nonneg_of_mul_nonneg_left (by rw [h]; exact hn) hp
  · rw [if_neg h0] at h
    rw [h]
    exact mul_nonneg hn (by positivity)

theorem Quantity.ScaledValue_of_IsWhole (q : Quantity) (n s : Int) (hs : s ≤ 0)
    (h : q.IsWhole n) (hn : 0 ≤ n) (hfit : n * 10 ^ (-s).toNat ≤ maxInt64) :
    q.ScaledValue s = n * 10 ^ (-s).toNat := by
  have he := Quantity.ExactScaledValue_of_IsWhole q n s hs h
  rw [Quantity.ScaledValue_eq_exact q s (Quantity.value_nonneg_of_IsWhole q n h hn)
    (by rw [he]; exact hfit), he]

theorem fillSnapshots_append (podMetrics : PodMetrics) (containers : List ContainerMetrics) :
    ∀ (i : Nat) (done : List (Option ContainerMetricsSnapshot)), done.length = i →
      fillSnapshots podMetrics i containers (done ++ List.replicate containers.length none)
        = done ++ containers.map (fun c => some (newContainerMetricsSnapshot c podMetrics)) := by
  induction containers with
  | nil => intro i done _; simp [fillSnapshots]
  | cons c rest ih =>
    intro i done hlen
    have hset : (done ++ List.replicate (c :: rest).length none).set i
          (some (newContainerMetricsSnapshot c podMetrics))
        = (done ++ [some (newContainerMetricsSnapshot c podMetrics)])
            ++ List.replicate rest.length none := by
      subst hlen
      simp [List.replicate_succ, List.set_append]
    rw [fillSnapshots, hset, ih (i + 1) _ (by simp [hlen])]
    simp

theorem createContainerMetricsSnapshots_eq_map (podMetrics : PodMetrics) :
    createContainerMetricsSnapshots podMetrics
      = podMetrics.Containers.map (fun c => some (newContainerMetricsSnapshot c podMetrics)) := by
  have := fillSnapshots_append podMetrics podMetrics.Containers 0 [] rfl
  simpa [createContainerMetricsSnapshots] using this

theorem foldl_append_eq_flatten {α β : Type} (f : α → List β) (xs : List α) (acc : List β) :
    xs.foldl (fun acc x => acc ++ f x) acc = acc ++ (xs.map f).flatten := by
  induction xs generalizing acc with
  | nil => simp
  | cons x rest ih => simp [ih]

/-! ## Claims -/

/-- C1: for a pod record with N containers, `createContainerMetricsSnapshots`
returns exactly N entries, each a (non-nil) snapshot whose `ID.PodID` is the
record's namespace and name; with an empty container sequence the output is
empty. -/
theorem createContainerMetricsSnapshots_count_podID (podMetrics : PodMetrics) :
    (createContainerMetricsSnapshots podMetrics).length = podMetrics.Containers.length ∧
    (∀ s ∈ createContainerMetricsSnapshots podMetrics,
      ∃ snapshot, s = some snapshot ∧
        snapshot.ID.PodID = ⟨podMetrics.Namespace, podMetrics.Name⟩) ∧
    createContainerMetricsSnapshots { podMetrics with Containers := [] } = [] := by
  refine ⟨?_, ?_, ?_⟩
  · simp [createContainerMetricsSnapshots_eq_map]
  · intro s hs
    rw [createContainerMetricsSnapshots_eq_map] at hs
    obtain ⟨c, _, rfl⟩ := List.mem_map.mp hs
    exact ⟨_, rfl, rfl⟩
  · rfl

/-- Witness for C1 at the two-container example pod. -/
theorem createContainerMetricsSnapshots_count_podID_witness :
    (createContainerMetricsSnapshots examplePod).length = 2 ∧
    (∀ s ∈ createContainerMetricsSnapshots examplePod,
      ∃ snapshot, s = some snapshot ∧ snapshot.ID.PodID = ⟨"default", "web-1"⟩) :=
  ⟨(createContainerMetricsSnapshots_count_podID examplePod).1,
   (createContainerMetricsSnapshots_count_podID examplePod).2.1⟩

/-- C2: when the listing call fails with error `e`, `GetContainersMetrics`
returns the nil slice (no snapshot at all) together with `e` itself,
whatever list pointer accompanied the error. -/
theorem GetContainersMetrics_listing_error (c : metricsClient)
    (l : Option PodMetricsList) (e : GoError)
    (h : (c.metricsGetter.PodMetricses NamespaceAll).List {} = (l, some e)) :
    c.GetContainersMetrics = some ([], some e) := by
  simp [metricsClient.GetContainersMetrics, h]

/-- Witness for C2: a source that fails while also handing back a non-empty
list. -/
theorem GetContainersMetrics_listing_error_witness :
    (clientReturning (some ⟨[examplePod]⟩, some ⟨"source unavailable"⟩)).GetContainersMetrics
      = some ([], some ⟨"source unavailable"⟩) :=
  GetContainersMetrics_listing_error _ (some ⟨[examplePod]⟩) ⟨"source unavailable"⟩ rfl

/-- C3: when the listing call succeeds with pod records `items`,
`GetContainersMetrics` returns, with a nil error, the concatenation in listing
order of `createContainerMetricsSnapshots` of each record, and the number of
returned snapshots is the sum of the records' container counts. -/
theorem GetContainersMetrics_concat (c : metricsClient) (items : List PodMetrics)
    (h : (c.metricsGetter.PodMetricses NamespaceAll).List {} = (some ⟨items⟩, none)) :
    c.GetContainersMetrics
      = some ((items.map createContainerMetricsSnapshots).flatten, none) ∧
    ((items.map createContainerMetricsSnapshots).flatten).length
      = (items.map (fun p => p.Containers.length)).sum := by
  constructor
  · simp [metricsClient.GetContainersMetrics, h, foldl_append_eq_flatten]
  · rw [List.length_flatten, List.map_map]
    congr 1
    apply List.map_congr_left
    intro p _
    simp [createContainerMetricsSnapshots_eq_map]

/-- Witness for C3: a listing of the example pod, an empty pod and the example
pod again yields four snapshots. -/
theorem GetContainersMetrics_concat_witness :
    (clientReturning (some ⟨[examplePod, { examplePod with Containers := [] }, examplePod]⟩,
        none)).GetContainersMetrics
      = some (createContainerMetricsSnapshots examplePod ++
          (createContainerMetricsSnapshots examplePod), none) ∧
    (createContainerMetricsSnapshots examplePod ++
          (createContainerMetricsSnapshots examplePod)).length = 4 := by
  have h := GetContainersMetrics_concat
    (clientReturning (some ⟨[examplePod, { examplePod with Containers := [] }, examplePod]⟩,
      none))
    [examplePod, { examplePod with Containers := [] }, examplePod] rfl
  exact ⟨h.1, rfl⟩

/-- C5, as the code has it: when the raw memory entry of the usage map is a
quantity that is a whole number `B` of bytes, with `B` non-negative and no
larger than the largest 64-bit signed integer, the Memory entry of the map
returned by `calculateUsage` is `B`. -/
theorem calculateUsage_memory_bytes (containerUsage : ResourceList) (q : Quantity)
    (B : Int) (hq : GoMap.get? containerUsage k8sResourceMemory = some q)
    (hB : q.IsWhole B) (hnonneg : 0 ≤ B) (hfits : B ≤ 2 ^ 63 - 1) :
    GoMap.get? (calculateUsage containerUsage) MetricName.ResourceMemory = some B := by
  have e : (10 : Int) ^ (-(0 : Int)).toNat = 1 := by decide
  have hv := Quantity.ScaledValue_of_IsWhole q B 0 (by decide) hB hnonneg
    (by rw [e]; unfold maxInt64; omega)
  rw [e, mul_one] at hv
  simp [calculateUsage, GoMap.get?, GoMap.index, hq, Quantity.Value, hv]

/-- Witness for C5: 134217728 bytes stay 134217728. -/
theorem calculateUsage_memory_bytes_witness :
    GoMap.get? ([("memory", ⟨134217728, 0⟩)] : ResourceList) k8sResourceMemory
        = some ⟨134217728, 0⟩ ∧
      Quantity.IsWhole ⟨134217728, 0⟩ 134217728 ∧
      GoMap.get? (calculateUsage [("memory", ⟨134217728, 0⟩)])
        MetricName.ResourceMemory = some 134217728 :=
  ⟨by decide, by decide,
    calculateUsage_memory_bytes [("memory", ⟨134217728, 0⟩)] ⟨134217728, 0⟩ 134217728
      (by decide) (by decide) (by decide) (by decide)⟩

/-- Counterexample to C5 as stated: the raw memory quantity `10E`
(10 × 10¹⁸ bytes, a whole number of bytes) overflows 64 bits in the
conversion, and `calculateUsage` reports 0 bytes, not 10000000000000000000. -/
theorem calculateUsage_memory_bytes_counterexample :
    Quantity.IsWhole ⟨10, 18⟩ 10000000000000000000 ∧
    GoMap.get? (calculateUsage [("memory", ⟨10, 18⟩)]) MetricName.ResourceMemory
      = some 0 ∧
    GoMap.get? (calculateUsage [("memory", ⟨10, 18⟩)]) MetricName.ResourceMemory
      ≠ some 10000000000000000000 := by
  decide

/-- C6: a raw usage map without a Memory entry still gives a result with the
Memory key, of value 0; a raw usage map without a CPU entry still gives a
result with the CPU key, of value 0. -/
theorem calculateUsage_absent_defaults_zero (containerUsage : ResourceList) :
    (GoMap.get? containerUsage k8sResourceMemory = none →
      GoMap.get? (calculateUsage containerUsage) MetricName.ResourceMemory = some 0) ∧
    (GoMap.get? containerUsage k8sResourceCPU = none →
      GoMap.get? (calculateUsage containerUsage) MetricName.ResourceCPU = some 0) := by
  have hv : Quantity.zero.Value = 0 := by decide
  have hm : Quantity.zero.MilliValue = 0 := by decide
  constructor
  · intro h
    simp [calculateUsage, GoMap.get?, GoMap.index, h, hv]
  · intro h
    simp [calculateUsage, GoMap.get?, GoMap.index, h, hm]

/-- Witness for C6: a map holding only CPU, and a map holding only memory. -/
theorem calculateUsage_absent_defaults_zero_witness :
    GoMap.get? (calculateUsage [("cpu", ⟨500, -3⟩)]) MetricName.ResourceMemory = some 0 ∧
    GoMap.get? (calculateUsage [("memory", ⟨7, 0⟩)]) MetricName.ResourceCPU = some 0 :=
  ⟨(calculateUsage_absent_defaults_zero [("cpu", ⟨500, -3⟩)]).1 (by decide),
   (calculateUsage_absent_defaults_zero [("memory", ⟨7, 0⟩)]).2 (by decide)⟩

/-- C7: for every raw usage map, the keys of the map returned by
`calculateUsage` are exactly CPU and Memory, each once; the same holds for the
usage map of every snapshot built by `newContainerMetricsSnapshot`. -/
theorem calculateUsage_keys (containerUsage : ResourceList)
    (containerMetrics : ContainerMetrics) (podMetrics : PodMetrics) :
    (∀ k, k ∈ GoMap.keys (calculateUsage containerUsage) ↔
      (k = MetricName.ResourceCPU ∨ k = MetricName.ResourceMemory)) ∧
    (GoMap.keys (calculateUsage containerUsage)).Nodup ∧
    (∀ k, k ∈ GoMap.keys (newContainerMetricsSnapshot containerMetrics podMetrics).Usage ↔
      (k = MetricName.ResourceCPU ∨ k = MetricName.ResourceMemory)) ∧
    (GoMap.keys (newContainerMetricsSnapshot containerMetrics podMetrics).Usage).Nodup := by
  refine ⟨?_, ?_, ?_, ?_⟩ <;>
    simp [calculateUsage, newContainerMetricsSnapshot, GoMap.keys]

/-- C8: `createContainerMetricsSnapshots` preserves input order: the entry at
index `i` is a snapshot whose container name is that of the `i`-th container
and whose usage is `calculateUsage` of that container's raw usage map. -/
theorem createContainerMetricsSnapshots_order (podMetrics : PodMetrics) (i : Nat)
    (h : i < podMetrics.Containers.length) :
    ∃ snapshot, (createContainerMetricsSnapshots podMetrics)[i]? = some (some snapshot) ∧
      snapshot.ID.ContainerName = (podMetrics.Containers.get ⟨i, h⟩).Name ∧
      snapshot.Usage = calculateUsage (podMetrics.Containers.get ⟨i, h⟩).Usage := by
  refine ⟨newContainerMetricsSnapshot (podMetrics.Containers.get ⟨i, h⟩) podMetrics, ?_, rfl, rfl⟩
  rw [createContainerMetricsSnapshots_eq_map]
  simp [List.getElem?_map, List.getElem?_eq_getElem h]

/-- Witness for C8: index 1 of the example pod is the sidecar, with both
amounts zero. -/
theorem createContainerMetricsSnapshots_order_witness :
    ∃ snapshot, (createContainerMetricsSnapshots examplePod)[1]? = some (some snapshot) ∧
      snapshot.ID.ContainerName = "sidecar" ∧
      snapshot.Usage = calculateUsage [("gpu", ⟨1, 0⟩)] :=
  createContainerMetricsSnapshots_order examplePod 1 (by decide)

/-- C9: when the listing call succeeds with zero pod records,
`GetContainersMetrics` returns an empty sequence and a nil error. -/
theorem GetContainersMetrics_zero_pods (c : metricsClient)
    (h : (c.metricsGetter.PodMetricses NamespaceAll).List {} = (some ⟨[]⟩, none)) :
    c.GetContainersMetrics = some ([], none) := by
  simp [metricsClient.GetContainersMetrics, h]

/-- Witness for C9. -/
theorem GetContainersMetrics_zero_pods_witness :
    (clientReturning (some ⟨[]⟩, none)).GetContainersMetrics = some ([], none) :=
  GetContainersMetrics_zero_pods (clientReturning (some ⟨[]⟩, none)) rfl

/-- C10: end-to-end, when the source lists exactly the scenario pod,
`GetContainersMetrics` returns a nil error and exactly one snapshot, with ID
{PodID{"default","web-1"}, "app"}, usage {CPU: 500, Memory: 268435456},
snapshot time `T` and snapshot window 60s. -/
theorem GetContainersMetrics_scenario (c : metricsClient) (T : Time)
    (h : (c.metricsGetter.PodMetricses NamespaceAll).List {}
      = (some ⟨[scenarioPod T]⟩, none)) :
    c.GetContainersMetrics
      = some ([some { ID := ⟨⟨"default", "web-1"⟩, "app"⟩,
                      Usage := [(MetricName.ResourceCPU, 500),
                                (MetricName.ResourceMemory, 268435456)],
                      SnapshotTime := T,
                      SnapshotWindow := Duration.seconds 60 }], none) := by
  simp only [metricsClient.GetContainersMetrics, h]
  rfl

/-- Witness for C10 at the timestamp 1700000000. -/
theorem GetContainersMetrics_scenario_witness :
    (clientReturning (some ⟨[scenarioPod ⟨1700000000⟩]⟩, none)).GetContainersMetrics
      = some ([some { ID := ⟨⟨"default", "web-1"⟩, "app"⟩,
                      Usage := [(MetricName.ResourceCPU, 500),
                                (MetricName.ResourceMemory, 268435456)],
                      SnapshotTime := ⟨1700000000⟩,
                      SnapshotWindow := ⟨60000000000⟩ }], none) :=
  GetContainersMetrics_scenario _ ⟨1700000000⟩ rfl

/-- C11: every snapshot produced by `createContainerMetricsSnapshots` for a
pod record carries that record's timestamp as `SnapshotTime` and that record's
window as `SnapshotWindow`; hence any two snapshots of the same record share
their time and window. -/
theorem createContainerMetricsSnapshots_time_window (podMetrics : PodMetrics) :
    (∀ s ∈ createContainerMetricsSnapshots podMetrics,
      ∃ snapshot, s = some snapshot ∧
        snapshot.SnapshotTime = podMetrics.Timestamp.Time ∧
        snapshot.SnapshotWindow = podMetrics.Window.Duration) ∧
    (∀ a b : ContainerMetricsSnapshot,
      some a ∈ createContainerMetricsSnapshots podMetrics →
      some b ∈ createContainerMetricsSnapshots podMetrics →
      a.SnapshotTime = b.SnapshotTime ∧ a.SnapshotWindow = b.SnapshotWindow) := by
  have key : ∀ s ∈ createContainerMetricsSnapshots podMetrics,
      ∃ snapshot, s = some snapshot ∧
        snapshot.SnapshotTime = podMetrics.Timestamp.Time ∧
        snapshot.SnapshotWindow = podMetrics.Window.Duration := by
    intro s hs
    rw [createContainerMetricsSnapshots_eq_map] at hs
    obtain ⟨c, _, rfl⟩ := List.mem_map.mp hs
    exact ⟨_, rfl, rfl, rfl⟩
  refine ⟨key, ?_⟩
  intro a b ha hb
  obtain ⟨a', ha', hat, haw⟩ := key _ ha
  obtain ⟨b', hb', hbt, hbw⟩ := key _ hb
  cases ha'
  cases hb'
  exact ⟨hat.trans hbt.symm, haw.trans hbw.symm⟩

/-- Witness for C11: both snapshots of the example pod carry its timestamp
and its sixty-second window. -/
theorem createContainerMetricsSnapshots_time_window_witness :
    (createContainerMetricsSnapshots examplePod).length = 2 ∧
    ∀ s ∈ createContainerMetricsSnapshots examplePod,
      ∃ snapshot, s = some snapshot ∧
        snapshot.SnapshotTime = ⟨1700000000⟩ ∧
        snapshot.SnapshotWindow = ⟨60000000000⟩ :=
  ⟨by decide, (createContainerMetricsSnapshots_time_window examplePod).1⟩

/-- C12: unrecognised resource kinds are ignored: two raw usage maps that
agree on their CPU entry and on their Memory entry (absence included) give
equal results of `calculateUsage`, whatever other keys they hold. -/
theorem calculateUsage_ignores_other_keys (usage₁ usage₂ : ResourceList)
    (hcpu : GoMap.get? usage₁ k8sResourceCPU = GoMap.get? usage₂ k8sResourceCPU)
    (hmem : GoMap.get? usage₁ k8sResourceMemory = GoMap.get? usage₂ k8sResourceMemory) :
    calculateUsage usage₁ = calculateUsage usage₂ := by
  simp only [calculateUsage, GoMap.index, hcpu, hmem]

/-- Witness for C12: the same CPU entry and no memory entry, next to
different unrecognised kinds. -/
theorem calculateUsage_ignores_other_keys_witness :
    calculateUsage [("cpu", ⟨500, -3⟩), ("gpu", ⟨1, 0⟩)]
      = calculateUsage [("ephemeral-storage", ⟨5, 9⟩), ("cpu", ⟨500, -3⟩)] :=
  calculateUsage_ignores_other_keys
    [("cpu", ⟨500, -3⟩), ("gpu", ⟨1, 0⟩)]
    [("ephemeral-storage", ⟨5, 9⟩), ("cpu", ⟨500, -3⟩)] (by decide) (by decide)

/-- C13, as the code has it: when the raw CPU and Memory quantities of a
usage map (where present) are non-negative and their converted values (the
millicore value of the CPU quantity, the byte value of the Memory quantity) are
no larger than the largest 64-bit signed integer, every amount in the map
returned by `calculateUsage`, and so in the usage of every snapshot built by
`newContainerMetricsSnapshot`, is non-negative. -/
theorem calculateUsage_nonneg (containerMetrics : ContainerMetrics) (podMetrics : PodMetrics)
    (hcpu : ∀ q, GoMap.get? containerMetrics.Usage k8sResourceCPU = some q →
      0 ≤ q.toRat ∧ 1000 * q.toRat ≤ 2 ^ 63 - 1)
    (hmem : ∀ q, GoMap.get? containerMetrics.Usage k8sResourceMemory = some q →
      0 ≤ q.toRat ∧ q.toRat ≤ 2 ^ 63 - 1) :
    (∀ k v, (k, v) ∈ calculateUsage containerMetrics.Usage → 0 ≤ v) ∧
    (∀ k v, (k, v) ∈ (newContainerMetricsSnapshot containerMetrics podMetrics).Usage →
      0 ≤ v) := by
  have hc : 0 ≤ (GoMap.index containerMetrics.Usage k8sResourceCPU
      Quantity.zero).MilliValue := by
    unfold GoMap.index
    cases hk : GoMap.get? containerMetrics.Usage k8sResourceCPU with
    | none => decide
    | some q =>
      obtain ⟨h0, hfit⟩ := hcpu q hk
      simp only [Option.getD_some]
      rw [Quantity.MilliValue_eq_ceil q h0 hfit]
      exact Int.ceil_nonneg (by positivity)
  have hm : 0 ≤ (GoMap.index containerMetrics.Usage k8sResourceMemory
      Quantity.zero).Value := by
    unfold GoMap.index
    cases hk : GoMap.get? containerMetrics.Usage k8sResourceMemory with
    | none => decide
    | some q =>
      obtain ⟨h0, hfit⟩ := hmem q hk
      simp only [Option.getD_some]
      rw [Quantity.Value_eq_ceil q h0 hfit]
      exact Int.ceil_nonneg h0
  have key : ∀ k v, (k, v) ∈ calculateUsage containerMetrics.Usage → 0 ≤ v := by
    intro k v hkv
    simp only [calculateUsage, List.mem_cons, Prod.mk.injEq, List.mem_nil_iff,
      or_false] at hkv
    rcases hkv with ⟨_, rfl⟩ | ⟨_, rfl⟩
    · exact hc
    · exact hm
  exact ⟨key, key⟩

/-- Witness for C13 (amended) at the first container of the example pod. -/
theorem calculateUsage_nonneg_witness :
    calculateUsage [("cpu", ⟨500, -3⟩), ("memory", ⟨256 * 2 ^ 20, 0⟩)]
      = [(MetricName.ResourceCPU, 500), (MetricName.ResourceMemory, 268435456)] ∧
    ∀ k v, (k, v) ∈ calculateUsage [("cpu", ⟨500, -3⟩), ("memory", ⟨256 * 2 ^ 20, 0⟩)] →
      0 ≤ v :=
  ⟨by decide, (calculateUsage_nonneg ⟨"app", [("cpu", ⟨500, -3⟩), ("memory", ⟨256 * 2 ^ 20, 0⟩)]⟩
    examplePod
    (by intro q hq; have e : q = ⟨500, -3⟩ := by simpa [GoMap.get?, k8sResourceCPU] using hq.symm
        subst e; norm_num [Quantity.toRat])
    (by intro q hq
        have e : q = ⟨256 * 2 ^ 20, 0⟩ := by
          simpa [GoMap.get?, k8sResourceMemory] using hq.symm
        subst e; norm_num [Quantity.toRat])).1⟩

/-- The bound in C13 (amended) is needed: a raw memory quantity of 2⁶³ bytes,
which is positive, is reported as the negative amount -2⁶³. -/
theorem calculateUsage_overflow_negative_example :
    calculateUsage [("memory", ⟨9223372036854775808, 0⟩)]
      = [(MetricName.ResourceCPU, 0), (MetricName.ResourceMemory, -9223372036854775808)] := by
  decide

/-- Counterexample to C13 as stated: a raw CPU quantity of minus 250
millicores passes through `calculateUsage` as the amount -250. -/
theorem calculateUsage_negative_counterexample :
    calculateUsage [("cpu", ⟨-250, -3⟩)]
      = [(MetricName.ResourceCPU, -250), (MetricName.ResourceMemory, 0)] ∧
    ¬ (∀ k v, (k, v) ∈ calculateUsage [("cpu", ⟨-250, -3⟩)] → 0 ≤ v) := by
  refine ⟨by decide, ?_⟩
  intro h
  exact absurd (h MetricName.ResourceCPU (-250) (by decide)) (by decide)

/-- C14, as the code has it: every snapshot produced for a pod record whose
window is non-negative has a non-negative `SnapshotWindow` (the window is
copied from the record unchanged). -/
theorem createContainerMetricsSnapshots_window_nonneg (podMetrics : PodMetrics)
    (h : 0 ≤ podMetrics.Window.Duration.nanoseconds) :
    ∀ s ∈ createContainerMetricsSnapshots podMetrics,
      ∃ snapshot, s = some snapshot ∧
        snapshot.SnapshotWindow = podMetrics.Window.Duration ∧
        0 ≤ snapshot.SnapshotWindow.nanoseconds := by
  intro s hs
  rw [createContainerMetricsSnapshots_eq_map] at hs
  obtain ⟨c, _, rfl⟩ := List.mem_map.mp hs
  exact ⟨_, rfl, rfl, h⟩

/-- Witness for C14 (amended) at the example pod, whose window is sixty
seconds. -/
theorem createContainerMetricsSnapshots_window_nonneg_witness :
    0 ≤ examplePod.Window.Duration.nanoseconds ∧
    ∀ s ∈ createContainerMetricsSnapshots examplePod,
      ∃ snapshot, s = some snapshot ∧
        snapshot.SnapshotWindow = examplePod.Window.Duration ∧
        0 ≤ snapshot.SnapshotWindow.nanoseconds :=
  ⟨by decide, createContainerMetricsSnapshots_window_nonneg examplePod (by decide)⟩

/-- Counterexample to C14 as stated: for a pod record reporting a window of
minus sixty seconds the snapshot carries that negative window. -/
theorem createContainerMetricsSnapshots_negative_window_counterexample :
    createContainerMetricsSnapshots negativeWindowPod
      = [some { ID := ⟨⟨"default", "web-1"⟩, "app"⟩,
                Usage := [(MetricName.ResourceCPU, 500),
                          (MetricName.ResourceMemory, 268435456)],
                SnapshotTime := ⟨1700000000⟩,
                SnapshotWindow := ⟨-60000000000⟩ }] ∧
    ¬ (∀ s ∈ createContainerMetricsSnapshots negativeWindowPod,
        ∃ snapshot, s = some snapshot ∧ 0 ≤ snapshot.SnapshotWindow.nanoseconds) := by
  have e : createContainerMetricsSnapshots negativeWindowPod
      = [some { ID := ⟨⟨"default", "web-1"⟩, "app"⟩,
                Usage := [(MetricName.ResourceCPU, 500),
                          (MetricName.ResourceMemory, 268435456)],
                SnapshotTime := ⟨1700000000⟩,
                SnapshotWindow := ⟨-60000000000⟩ }] := by decide
  refine ⟨e, ?_⟩
  intro h
  obtain ⟨snapshot, hs, hw⟩ := h _ (by rw [e]; exact List.mem_singleton.mpr rfl)
  cases hs
  revert hw
  decide

/-- C15: `GetContainersMetrics` returns the error `e` exactly when the listing
call returns the error `e`; and when the listing call succeeds with a pod
list, it returns a nil error whatever the list holds. -/
theorem GetContainersMetrics_error_iff (c : metricsClient) :
    (∀ e, (∃ snapshots, c.GetContainersMetrics = some (snapshots, some e)) ↔
      ((c.metricsGetter.PodMetricses NamespaceAll).List {}).2 = some e) ∧
    (∀ podMetricsList,
      (c.metricsGetter.PodMetricses NamespaceAll).List {} = (some podMetricsList, none) →
      ∃ snapshots, c.GetContainersMetrics = some (snapshots, none)) := by
  constructor
  · intro e
    rcases hl : (c.metricsGetter.PodMetricses NamespaceAll).List {} with ⟨l, err⟩
    cases err with
    | some e' => simp [metricsClient.GetContainersMetrics, hl]
    | none => cases l <;> simp [metricsClient.GetContainersMetrics, hl]
  · intro podMetricsList h
    simp [metricsClient.GetContainersMetrics, h]

/-- Witness for C15: a failing listing gives its error, a successful listing
of the example pod gives a nil error. -/
theorem GetContainersMetrics_error_iff_witness :
    (∃ snapshots, (clientReturning (none, some ⟨"source unavailable"⟩)).GetContainersMetrics
      = some (snapshots, some ⟨"source unavailable"⟩)) ∧
    (∃ snapshots, (clientReturning (some ⟨[examplePod]⟩, none)).GetContainersMetrics
      = some (snapshots, none)) :=
  ⟨((GetContainersMetrics_error_iff
      (clientReturning (none, some ⟨"source unavailable"⟩))).1 ⟨"source unavailable"⟩).2 rfl,
   (GetContainersMetrics_error_iff (clientReturning (some ⟨[examplePod]⟩, none))).2
      ⟨[examplePod]⟩ rfl⟩

/-- C16: for a non-negative raw CPU quantity `q` (in cores) whose millicore
value fits in a 64-bit signed integer, the CPU entry returned by
`calculateUsage` is the smallest integer greater than or equal to `1000 * q`;
so a strictly positive usage is reported as a strictly positive number of
millicores. -/
theorem calculateUsage_cpu_ceil (containerUsage : ResourceList) (q : Quantity)
    (hq : GoMap.get? containerUsage k8sResourceCPU = some q)
    (hnonneg : 0 ≤ q.toRat)
    (_hfits : 1000 * q.toRat ≤ 2 ^ 63 - 1) :
    ∃ n : Int,
      GoMap.get? (calculateUsage containerUsage) MetricName.ResourceCPU = some n ∧
      1000 * q.toRat ≤ (n : ℚ) ∧
      (∀ m : Int, 1000 * q.toRat ≤ (m : ℚ) → n ≤ m) ∧
      (0 < q.toRat → 0 < n) := by
  have hv := Quantity.MilliValue_eq_ceil q hnonneg _hfits
  refine ⟨⌈1000 * q.toRat⌉, ?_, Int.le_ceil _, ?_, ?_⟩
  · simp [calculateUsage, GoMap.get?, GoMap.index, hq, hv]
  · intro m hm
    exact Int.ceil_le.mpr hm
  · intro hpos
    exact Int.ceil_pos.mpr (by positivity)

/-- Witness for C16: 123456789 nanocores are reported as 124 millicores. -/
theorem calculateUsage_cpu_ceil_witness :
    GoMap.get? (calculateUsage [("cpu", ⟨123456789, -9⟩)]) MetricName.ResourceCPU
      = some 124 ∧
    ∃ n : Int,
      GoMap.get? (calculateUsage [("cpu", ⟨123456789, -9⟩)]) MetricName.ResourceCPU
        = some n ∧
      1000 * (Quantity.mk 123456789 (-9)).toRat ≤ (n : ℚ) ∧
      (∀ m : Int, 1000 * (Quantity.mk 123456789 (-9)).toRat ≤ (m : ℚ) → n ≤ m) ∧
      (0 < (Quantity.mk 123456789 (-9)).toRat → 0 < n) :=
  ⟨by decide,
   calculateUsage_cpu_ceil [("cpu", ⟨123456789, -9⟩)] ⟨123456789, -9⟩ (by decide)
    (by norm_num [Quantity.toRat]) (by norm_num [Quantity.toRat])⟩

end Cluster
